import Mathlib

/-!
Verification of the CoreControl server-monitoring engine
(`internal/server` package: `MonitorServers`, `shouldSendNotification`,
the metric fetchers, `formatUptime`, `sendStatusChangeNotification`,
`updateServerStatus`, `addServerHistoryEntry`).

The Go code is shallowly embedded: strings are handled through their
character lists, `float64` metric values are modelled as `Rat`
(the claims only move values around and compare them with 0), the wall
clock is an explicit `Int` of seconds, and the side effects of one
monitoring cycle (HTTP GETs, status-row updates, history appends,
notification dispatches) are collected as an explicit event trace.
-/

namespace CoreControl

/-! ### Character and numeral helpers

Models of the Go standard-library pieces the engine uses:
`fmt.Sscanf` with `%d` verbs and literals, `strings.Split`,
`strings.ReplaceAll`, `strings.TrimSuffix`, `strings.Trim`, and the
decimal rendering used by `time.Time.Format`. -/

def isDigitChar (c : Char) : Bool := 48 ≤ c.toNat && c.toNat ≤ 57

/-- In Go's `fmt` scanning, "space" means whitespace other than newline
(ASCII part of the package's space table). -/
def isSpaceNotNL (c : Char) : Bool :=
  c == ' ' || c == '\t' || c == '\x0b' || c == '\x0c' || c == '\r'

/-- `ss.SkipSpace` for the `Sscanf` family (`nlIsSpace = false`): skip
non-newline whitespace; a newline (also the one of `"\r\n"`) is an
"unexpected newline" scan error, here `none`. -/
def skipSpaceScanf : List Char → Option (List Char)
  | [] => some []
  | c :: cs =>
    if c = '\n' then none
    else if isSpaceNotNL c then skipSpaceScanf cs
    else some (c :: cs)

def digitChar (d : Nat) : Char := Char.ofNat (48 + d)

/-- Decimal digits of `n`, most significant first; fuel-driven so that it is
structural (any fuel above the digit count gives the same list). -/
def natReprAux : Nat → Nat → List Char
  | 0, _ => []
  | fuel+1, n => if n < 10 then [digitChar n] else natReprAux fuel (n / 10) ++ [digitChar (n % 10)]

def natReprChars (n : Nat) : List Char := natReprAux (n + 1) n

def natRepr (n : Nat) : String := ⟨natReprChars n⟩

/-- Two-digit zero-padded rendering, as in Go's `15:04` time layout. -/
def pad2Chars (n : Nat) : List Char := if n < 10 then '0' :: natReprChars n else natReprChars n

def pad2 (n : Nat) : String := ⟨pad2Chars n⟩

/-- The longest prefix of decimal digits, and the remainder. -/
def takeDigits : List Char → List Char × List Char
  | [] => ([], [])
  | c :: cs =>
    if isDigitChar c then
      let r := takeDigits cs
      (c :: r.1, r.2)
    else ([], c :: cs)

def digitsValAcc : List Char → Nat → Nat
  | [], acc => acc
  | c :: cs, acc => digitsValAcc cs (acc * 10 + (c.toNat - 48))

/-- An unsigned decimal numeral at the front of the input (at least one
digit), with the remainder. -/
def scanNat (s : List Char) : Option (Nat × List Char) :=
  let p := takeDigits s
  if p.1.isEmpty then none else some (digitsValAcc p.1 0, p.2)

/-- Go's `Sscanf` `%d` verb scanning into an `int`: skip leading spaces
(erroring on a newline), then an optionally signed decimal numeral,
parsed with 64-bit signed range — a numeral beyond int64 is a range
error (`none`), as `strconv.ParseInt` reports to the scanner. -/
def scanIntGo (s0 : List Char) : Option (Int × List Char) :=
  match skipSpaceScanf s0 with
  | none => none
  | some s =>
    match s with
    | [] => none
    | c :: rest =>
      if c = '-' then
        match scanNat rest with
        | none => none
        | some (n, r) => if n ≤ 9223372036854775808 then some (-(n : Int), r) else none
      else if c = '+' then
        match scanNat rest with
        | none => none
        | some (n, r) => if n ≤ 9223372036854775807 then some ((n : Int), r) else none
      else
        match scanNat (c :: rest) with
        | none => none
        | some (n, r) => if n ≤ 9223372036854775807 then some ((n : Int), r) else none

/-- Match the literal characters `lit` at the front of the input, returning
the remainder (an `Sscanf` format literal: each character must be present). -/
def matchLit : List Char → List Char → Option (List Char)
  | [], s => some s
  | _ :: _, [] => none
  | l :: ls, c :: cs => if c = l then matchLit ls cs else none

/-- A run of spaces (no newline) in an `Sscanf` format: it must consume at
least one non-newline space or find the end of the input; a newline in the
input is a scan error, and the consumption stops in front of a newline
(which the following format literal then fails to match). -/
def matchSpaceRun (s : List Char) : Option (List Char) :=
  match s with
  | [] => some []
  | c :: cs =>
    if c = '\n' then none
    else if isSpaceNotNL c then some ((c :: cs).dropWhile isSpaceNotNL)
    else none

/-- Does `pat` occur at the front of `s`? (Character-by-character, as Go's
`strings.HasPrefix` over the bytes of ASCII patterns.) -/
def startsWith : List Char → List Char → Bool
  | [], _ => true
  | _ :: _, [] => false
  | p :: ps, c :: cs => if p = c then startsWith ps cs else false

/-- First occurrence of the non-empty pattern `pat` in `s`: the characters
before it and the characters after it (Go's `strings.Index`). -/
def findSub (pat : List Char) : List Char → Option (List Char × List Char)
  | [] => none
  | c :: cs =>
    if startsWith pat (c :: cs) then some ([], (c :: cs).drop pat.length)
    else
      match findSub pat cs with
      | none => none
      | some (pre, post) => some (c :: pre, post)

/-- One round of `strings.Split` steps, fuel-driven (each step removes at
least the separator, so any fuel of at least the input length suffices;
fuel 0 and a separator-free input agree, both returning `[s]`). -/
def splitSepFuel (sep : List Char) : Nat → List Char → List (List Char)
  | 0, s => [s]
  | fuel+1, s =>
    match findSub sep s with
    | none => [s]
    | some (pre, post) => pre :: splitSepFuel sep fuel post

/-- Go's `strings.Split` around a non-empty separator. -/
def splitSep (sep s : List Char) : List (List Char) := splitSepFuel sep s.length s

/-- Go's `strings.ReplaceAll` steps: replace each non-overlapping occurrence
of `pat`, left to right, never rescanning the replacement text. -/
def replaceAllFuel (pat sub : List Char) : Nat → List Char → List Char
  | 0, s => s
  | fuel+1, s =>
    match findSub pat s with
    | none => s
    | some (pre, post) => pre ++ sub ++ replaceAllFuel pat sub fuel post

/-- Go's `strings.ReplaceAll s pat sub` for a non-empty `pat` (the engine
only replaces the non-empty placeholders). -/
def replaceAll (s pat sub : String) : String :=
  if pat.data.isEmpty then s else ⟨replaceAllFuel pat.data sub.data (s.data.length + 1) s.data⟩

/-- Go's `strings.TrimSuffix s "/"`: drop one trailing slash if present. -/
def trimSuffixSlash (s : String) : String :=
  match s.data.reverse with
  | '/' :: rest => ⟨rest.reverse⟩
  | _ => s

/-- Go's `strings.Trim s "\""`: drop all leading and trailing quote
characters. -/
def trimQuotes (s : String) : String :=
  ⟨(((s.data.dropWhile (· == '"')).reverse).dropWhile (· == '"')).reverse⟩

/-! ### Wall-clock rendering

An instant is an `Int` of seconds. `goFormatTime` models
`time.Time.Format "2.1 15:04"`: day of month and month unpadded,
24-hour hour and minute zero-padded. The date conversion is the
standard civil-from-days algorithm on the proleptic Gregorian
calendar. -/

/-- Year, month and day of month for a day count from the epoch
1970-01-01. -/
def civilFromDays (z0 : Int) : Int × Nat × Nat :=
  let z := z0 + 719468
  let era : Int := z.fdiv 146097
  let doe : Nat := (z - era * 146097).toNat
  let yoe : Nat := (doe - doe / 1460 + doe / 36524 - doe / 146096) / 365
  let doy : Nat := doe - (365 * yoe + yoe / 4 - yoe / 100)
  let mp : Nat := (5 * doy + 2) / 153
  let d : Nat := doy - (153 * mp + 2) / 5 + 1
  let m : Nat := if mp < 10 then mp + 3 else mp - 9
  ((yoe : Int) + era * 400 + (if m ≤ 2 then 1 else 0), m, d)

/-- Render an instant in the Go layout `"2.1 15:04"`
(`day.month hour:minute`). -/
def goFormatTime (t : Int) : String :=
  let day := t.fdiv 86400
  let sod := (t - day * 86400).toNat
  let c := civilFromDays day
  natRepr c.2.2 ++ "." ++ natRepr c.2.1 ++ " " ++ pad2 (sod / 3600) ++ ":" ++ pad2 (sod % 3600 / 60)

/-! ### The Uptime Normalizer (`formatUptime`)

`formatUptime` splits on `", "`, scans the day count with
`Sscanf "%d days"` (falling back to `"%d day"`), scans the time with
`Sscanf "%d:%d:%d"`, and renders `now` minus the elapsed duration; any
failure returns the input unchanged. -/

/-- `Sscanf s ("%d" ++ spaces ++ lit)`: the scanned integer when the whole
format matches (trailing input is ignored, as `Sscanf` does once the format
is exhausted). -/
def scanDayLit (lit : List Char) (s : List Char) : Option Int :=
  match scanIntGo s with
  | none => none
  | some (n, rest) =>
    match matchSpaceRun rest with
    | none => none
    | some r2 =>
      match matchLit lit r2 with
      | none => none
      | some _ => some n

/-- The day-count scan of `formatUptime`: `"%d days"` first, then the
singular `"%d day"`. -/
def scanDaysGo (s : List Char) : Option Int :=
  match scanDayLit ['d', 'a', 'y', 's'] s with
  | some n => some n
  | none => scanDayLit ['d', 'a', 'y'] s

/-- `Sscanf timeStr "%d:%d:%d"`: hours, minutes, seconds. -/
def scanHMS (s : List Char) : Option (Int × Int × Int) :=
  match scanIntGo s with
  | none => none
  | some (h, r1) =>
    match r1 with
    | [] => none
    | c1 :: r1t =>
      if c1 = ':' then
        match scanIntGo r1t with
        | none => none
        | some (m, r2) =>
          match r2 with
          | [] => none
          | c2 :: r2t =>
            if c2 = ':' then
              match scanIntGo r2t with
              | none => none
              | some (sec, _) => some (h, m, sec)
            else none
      else none

/-- Two's-complement wraparound of Go's 64-bit signed arithmetic. -/
def int64Wrap (x : Int) : Int :=
  (x + 9223372036854775808) % 18446744073709551616 - 9223372036854775808

/-- The `time.Duration` (int64 nanoseconds) the Go code computes:
`time.Duration(days)*24*time.Hour + time.Duration(hours)*time.Hour +
time.Duration(minutes)*time.Minute + time.Duration(seconds)*time.Second`,
every multiplication and addition wrapping as int64 does. -/
def goDurationNs (d h m s : Int) : Int :=
  let t1 := int64Wrap (int64Wrap (d * 24) * 3600000000000)
  let t2 := int64Wrap (h * 3600000000000)
  let t3 := int64Wrap (m * 60000000000)
  let t4 := int64Wrap (s * 1000000000)
  int64Wrap (int64Wrap (int64Wrap (t1 + t2) + t3) + t4)

/-- The seconds of `t.Add(d)` for a wall-clock instant of `tsec` seconds
(zero nanoseconds) and a duration of `d` nanoseconds: Go adds
`d / 1e9` seconds (truncated division) and carries a negative
nanosecond remainder; the sub-second remainder cannot reach the
minute-precision rendering. -/
def goTimeAddSec (tsec d : Int) : Int :=
  let dsec := d.tdiv 1000000000
  let nsec := d.tmod 1000000000
  if nsec < 0 then tsec + dsec - 1 else tsec + dsec

/-- The day/hour/minute/second components `formatUptime` parses from its
input, or `none` on the parse failures that make it return the input
unchanged (a split into three or more parts, a failed day-count scan, or a
failed `H:MM:SS` scan); a single part means a day count of 0. -/
def parseUptimeComponents (s : List Char) : Option (Int × Int × Int × Int) :=
  match splitSep [',', ' '] s with
  | [p0, p1] =>
    match scanDaysGo p0 with
    | none => none
    | some d =>
      match scanHMS p1 with
      | none => none
      | some (h, m, sec) => some (d, h, m, sec)
  | [p0] =>
    match scanHMS p0 with
    | none => none
    | some (h, m, sec) => some (0, h, m, sec)
  | _ => none

/-- Go `formatUptime`, with the wall clock `now` passed explicitly: parse
the components, build the int64 `time.Duration`, and render
`now.Add(-duration)`; any parse failure returns the input unchanged. -/
def formatUptime (now : Int) (uptimeStr : String) : String :=
  match parseUptimeComponents uptimeStr.data with
  | none => uptimeStr
  | some (d, h, m, sec) =>
    goFormatTime (goTimeAddSec now (int64Wrap (-goDurationNs d h m sec)))

/-! ### The remote monitoring API model

One `client.Get` is modelled by an `HttpResult`: a transport error, or a
response with a status code and a decoded body (`none` models a JSON
decode failure / unreadable body). The typed response shapes mirror the
`models` package: `CPUResponse.Total`, `MemoryResponse.Percent`, the
filesystem list with `Percent` entries, `GPUResponse.Proc`, the
`Composite` sensor list with `Value` entries, and the uptime body. -/

structure HttpResp (α : Type) where
  status : Nat
  body : Option α
deriving DecidableEq

inductive HttpResult (α : Type) where
  | err
  | resp (r : HttpResp α)
deriving DecidableEq

structure CPUResponse where
  total : Rat
deriving DecidableEq

structure MemoryResponse where
  percent : Rat
deriving DecidableEq

structure FSEntry where
  percent : Rat
deriving DecidableEq

structure GPUResponse where
  proc : Rat
deriving DecidableEq

structure TempSensor where
  value : Rat
deriving DecidableEq

structure TemperatureResponse where
  composite : List TempSensor
deriving DecidableEq

/-- The uptime endpoint's body: the raw bytes as a string, and the result
of `json.Unmarshal` into `UptimeResponse` (`some v` when it decodes with
`Value = v`, `none` on a JSON decode error). -/
structure UptimeBody where
  raw : String
  json : Option String
deriving DecidableEq

/-- The failure classes a fetcher can meet on one request: transport error,
non-200 status, or an undecodable body. -/
def httpFail {α : Type} : HttpResult α → Prop
  | .err => True
  | .resp r => r.status ≠ 200 ∨ r.body = none

/-! ### The metric fetchers

Each `xResult` is the `(ok, value)` pair the Go fetcher returns for a
given HTTP outcome; the `fetchX` wrappers add the GET the fetcher
performs to the event trace. -/

def cpuResult : HttpResult CPUResponse → Bool × Rat
  | .err => (false, 0)
  | .resp r =>
    if r.status ≠ 200 then (false, 0)
    else
      match r.body with
      | none => (false, 0)
      | some d => (true, d.total)

def memResult : HttpResult MemoryResponse → Bool × Rat
  | .err => (false, 0)
  | .resp r =>
    if r.status ≠ 200 then (false, 0)
    else
      match r.body with
      | none => (false, 0)
      | some d => (true, d.percent)

def diskResult : HttpResult (List FSEntry) → Bool × Rat
  | .err => (false, 0)
  | .resp r =>
    if r.status ≠ 200 then (false, 0)
    else
      match r.body with
      | none => (false, 0)
      | some [] => (true, 0)
      | some (e :: _) => (true, e.percent)

def gpuResult : HttpResult GPUResponse → Bool × Rat
  | .err => (true, 0)
  | .resp r =>
    if r.status ≠ 200 then (true, 0)
    else
      match r.body with
      | none => (true, 0)
      | some d => (true, d.proc)

def tempResult : HttpResult TemperatureResponse → Bool × Rat
  | .err => (true, 0)
  | .resp r =>
    if r.status ≠ 200 then (true, 0)
    else
      match r.body with
      | none => (true, 0)
      | some d =>
        match d.composite with
        | [] => (true, 0)
        | e :: _ => (true, e.value)

/-- The uptime string `fetchUptime` produces: empty on transport error,
non-200 or an unreadable body; otherwise the JSON `Value` field when it
decodes non-empty, else the quote-trimmed raw body — either way passed
through `formatUptime`. -/
def uptimeResult (now : Int) : HttpResult UptimeBody → String
  | .err => ""
  | .resp r =>
    if r.status ≠ 200 then ""
    else
      match r.body with
      | none => ""
      | some ub =>
        match ub.json with
        | some v => if v ≠ "" then formatUptime now v else formatUptime now (trimQuotes ub.raw)
        | none => formatUptime now (trimQuotes ub.raw)

/-! ### Persisted state and the event trace -/

/-- One observable side effect of a monitoring cycle, in program order:
an HTTP GET issued by a fetcher, an `UPDATE server` row write
(`updateServerStatus`), an `INSERT INTO server_history`
(`addServerHistoryEntry`), or a dispatched notification
(`notifSender.SendNotifications`). -/
inductive Event where
  | get (url : String)
  | statusUpdate (id : Nat) (online : Bool) (cpu ram disk gpu temp : Rat) (uptime : String)
  | historyEntry (id : Nat) (online : Bool) (cpu ram disk gpu temp : Rat)
  | notification (message : String)
deriving DecidableEq

def fetchCPUUsage (base : String) (r : HttpResult CPUResponse) : List Event × Bool × Rat :=
  ([Event.get (base ++ "/api/4/cpu")], cpuResult r)

def fetchMemoryUsage (base : String) (r : HttpResult MemoryResponse) : List Event × Bool × Rat :=
  ([Event.get (base ++ "/api/4/mem")], memResult r)

def fetchDiskUsage (base : String) (r : HttpResult (List FSEntry)) : List Event × Bool × Rat :=
  ([Event.get (base ++ "/api/4/fs")], diskResult r)

def fetchGPUUsage (base : String) (r : HttpResult GPUResponse) : List Event × Bool × Rat :=
  ([Event.get (base ++ "/api/4/gpu")], gpuResult r)

def fetchTemperature (base : String) (r : HttpResult TemperatureResponse) :
    List Event × Bool × Rat :=
  ([Event.get (base ++ "/api/4/sensors/label/value/Composite")], tempResult r)

def fetchUptime (base : String) (now : Int) (r : HttpResult UptimeBody) : List Event × String :=
  ([Event.get (base ++ "/api/4/uptime")], uptimeResult now r)

/-- The process-wide `notificationState.lastStatus` map from server id to
last observed online status, as an association list. -/
abbrev Memory := List (Nat × Bool)

def memLookup : Memory → Nat → Option Bool
  | [], _ => none
  | (k, v) :: rest, id => if k = id then some v else memLookup rest id

def memSet : Memory → Nat → Bool → Memory
  | [], id, b => [(id, b)]
  | (k, v) :: rest, id, b => if k = id then (id, b) :: rest else (k, v) :: memSet rest id b

/-- Go `shouldSendNotification`: notify when the server has no recorded
status or the recorded status differs, recording the new status in that
case; otherwise keep the map and do not notify. -/
def shouldSendNotification (st : Memory) (serverID : Nat) (online : Bool) : Bool × Memory :=
  match memLookup st serverID with
  | none => (true, memSet st serverID online)
  | some lastStatus =>
    if lastStatus != online then (true, memSet st serverID online) else (false, st)

/-! ### Notification rendering and the cycle orchestrator -/

/-- The message `sendStatusChangeNotification` dispatches: substitute
`!name` with the server's name first, then `!status` with
`"online"`/`"offline"`. -/
def statusWord (online : Bool) : String := if online then "online" else "offline"

def renderMessage (template name : String) (online : Bool) : String :=
  replaceAll (replaceAll template "!name" name) "!status" (statusWord online)

/-- One server as `MonitorServers` reads it: identity, monitoring
configuration (`Monitoring`, the nullable `MonitoringURL`), and the
persisted `Online` snapshot compared against on the success path. -/
structure Server where
  id : Nat
  name : String
  monitoring : Bool
  monitoringURL : Option String
  online : Bool
deriving DecidableEq

/-- The network's answers for one server during one cycle, one field per
endpoint the engine can query. -/
structure HostWorld where
  cpu : HttpResult CPUResponse
  uptime : HttpResult UptimeBody
  mem : HttpResult MemoryResponse
  fs : HttpResult (List FSEntry)
  gpu : HttpResult GPUResponse
  temp : HttpResult TemperatureResponse
deriving DecidableEq

/-- The offline tail of a loop iteration (the three identical required-
failure blocks of `MonitorServers`): write the zeroed status row, notify
if `shouldSendNotification` says so, append the zeroed history entry. -/
def offlineOutcome (template : String) (st : Memory) (sv : Server) (pre : List Event) :
    Memory × List Event :=
  let r := shouldSendNotification st sv.id false
  (r.2,
    pre ++ [Event.statusUpdate sv.id false 0 0 0 0 0 ""]
      ++ (if r.1 then [Event.notification (renderMessage template sv.name false)] else [])
      ++ [Event.historyEntry sv.id false 0 0 0 0 0])

/-- One iteration of the `MonitorServers` loop for one server: skip when
monitoring is off or the URL is absent; otherwise CPU, then (on success)
uptime, memory, disk, GPU and temperature, stopping with the offline
outcome at the first required failure; on full success, notify only when
the new status differs from the persisted snapshot and
`shouldSendNotification` agrees, then persist status and history. -/
def processServer (template : String) (now : Int) (st : Memory) (sv : Server) (w : HostWorld) :
    Memory × List Event :=
  match sv.monitoringURL, sv.monitoring with
  | some rawURL, true =>
    let baseURL := trimSuffixSlash rawURL
    let c := fetchCPUUsage baseURL w.cpu
    if c.2.1 then
      let u := fetchUptime baseURL now w.uptime
      let m := fetchMemoryUsage baseURL w.mem
      if m.2.1 then
        let d := fetchDiskUsage baseURL w.fs
        if d.2.1 then
          let g := fetchGPUUsage baseURL w.gpu
          let t := fetchTemperature baseURL w.temp
          let notifPart :=
            if sv.online = false then
              let r := shouldSendNotification st sv.id true
              (r.2, if r.1 then [Event.notification (renderMessage template sv.name true)] else [])
            else (st, ([] : List Event))
          (notifPart.1,
            c.1 ++ u.1 ++ m.1 ++ d.1 ++ g.1 ++ t.1 ++ notifPart.2
              ++ [Event.statusUpdate sv.id true c.2.2 m.2.2 d.2.2 g.2.2 t.2.2 u.2,
                  Event.historyEntry sv.id true c.2.2 m.2.2 d.2.2 g.2.2 t.2.2])
        else offlineOutcome template st sv (c.1 ++ u.1 ++ m.1 ++ d.1)
      else offlineOutcome template st sv (c.1 ++ u.1 ++ m.1)
    else offlineOutcome template st sv c.1
  | _, _ => (st, [])

def defaultTemplate : String := "The server !name is now !status!"

/-- The template row read from settings: a query error (`none`) or an
empty value falls back to the default template. -/
def resolveTemplate : Option String → String
  | none => defaultTemplate
  | some t => if t = "" then defaultTemplate else t

def monitorLoop (template : String) (now : Int) :
    Memory → List (Server × HostWorld) → Memory × List Event
  | st, [] => (st, [])
  | st, sw :: rest =>
    let r := processServer template now st sw.1 sw.2
    let r2 := monitorLoop template now r.1 rest
    (r2.1, r.2 ++ r2.2)

/-- Go `MonitorServers`: resolve the notification template once, then run
the loop over every server, threading the notification-state map and
collecting the cycle's event trace. -/
def monitorServers (templateRow : Option String) (now : Int) (st : Memory)
    (servers : List (Server × HostWorld)) : Memory × List Event :=
  monitorLoop (resolveTemplate templateRow) now st servers

/-! ### Event selectors -/

def isNotifEvent : Event → Bool
  | .notification _ => true
  | _ => false

def isStatusEvent : Event → Bool
  | .statusUpdate _ _ _ _ _ _ _ _ => true
  | _ => false

def isHistoryEvent : Event → Bool
  | .historyEntry _ _ _ _ _ _ _ => true
  | _ => false

def isStatusForHost (id : Nat) : Event → Bool
  | .statusUpdate i _ _ _ _ _ _ _ => i == id
  | _ => false

def isHistoryForHost (id : Nat) : Event → Bool
  | .historyEntry i _ _ _ _ _ _ => i == id
  | _ => false

def notifEvents (l : List Event) : List Event := l.filter isNotifEvent

/-- The six GETs of a fully successful probe, in program order. -/
def allGets (url : String) : List Event :=
  [Event.get (trimSuffixSlash url ++ "/api/4/cpu"),
   Event.get (trimSuffixSlash url ++ "/api/4/uptime"),
   Event.get (trimSuffixSlash url ++ "/api/4/mem"),
   Event.get (trimSuffixSlash url ++ "/api/4/fs"),
   Event.get (trimSuffixSlash url ++ "/api/4/gpu"),
   Event.get (trimSuffixSlash url ++ "/api/4/sensors/label/value/Composite")]

/-- The status-row and history writes of a fully successful probe. -/
def onlineWrites (now : Int) (id : Nat) (w : HostWorld) : List Event :=
  [Event.statusUpdate id true (cpuResult w.cpu).2 (memResult w.mem).2 (diskResult w.fs).2
     (gpuResult w.gpu).2 (tempResult w.temp).2 (uptimeResult now w.uptime),
   Event.historyEntry id true (cpuResult w.cpu).2 (memResult w.mem).2 (diskResult w.fs).2
     (gpuResult w.gpu).2 (tempResult w.temp).2]

/-- Every persisted record (status row or history entry) marked offline
carries five zero metric values, and the status row an empty uptime
string; other events vacuously pass. -/
def offlineZeroedB : Event → Bool
  | .statusUpdate _ online c r d g t u =>
      online || (decide (c = 0) && decide (r = 0) && decide (d = 0) && decide (g = 0)
        && decide (t = 0) && decide (u = ""))
  | .historyEntry _ online c r d g t =>
      online || (decide (c = 0) && decide (r = 0) && decide (d = 0) && decide (g = 0)
        && decide (t = 0))
  | _ => true

/-- Decode succeeded but the composite sensor list is empty. -/
def tempDecodesEmpty : HttpResult TemperatureResponse → Prop
  | .err => False
  | .resp r =>
    match r.body with
    | some d => d.composite = []
    | none => False

/-- The `H:MM:SS` character rendering of an `Sscanf "%d:%d:%d"`-parsable
time component. -/
def hmsChars (h m s : Nat) : List Char :=
  natReprChars h ++ ':' :: (pad2Chars m ++ ':' :: pad2Chars s)

/-! ### The well-formed uptime inputs of the specification -/

/-- The elapsed seconds encoded by `"<N> day(s), H:MM:SS"`. -/
def uptimeSeconds (n h m s : Nat) : Int :=
  (n : Int) * 86400 + (h : Int) * 3600 + (m : Int) * 60 + (s : Int)

/-- `"<N> days, H:MM:SS"`. -/
def mkUptimePlural (n h m s : Nat) : String :=
  ⟨(natReprChars n ++ (' ' :: ['d', 'a', 'y', 's'])) ++ ',' :: ' ' :: hmsChars h m s⟩

/-- `"<N> day, H:MM:SS"`. -/
def mkUptimeSingular (n h m s : Nat) : String :=
  ⟨(natReprChars n ++ (' ' :: ['d', 'a', 'y'])) ++ ',' :: ' ' :: hmsChars h m s⟩

/-- `"H:MM:SS"` (no day part). -/
def mkUptimeTimeOnly (h m s : Nat) : String := ⟨hmsChars h m s⟩

/-! ### Transition-detector lemmas -/

theorem shouldSend_fst (st : Memory) (id : Nat) (b : Bool) :
    (shouldSendNotification st id b).1 = !(memLookup st id == some b) := by
  unfold shouldSendNotification
  cases h : memLookup st id with
  | none => simp
  | some last =>
    by_cases hb : last = b
    · subst hb; simp
    · simp [hb, bne_iff_ne]

theorem memLookup_memSet_self (st : Memory) (id : Nat) (b : Bool) :
    memLookup (memSet st id b) id = some b := by
  induction st with
  | nil => simp [memSet, memLookup]
  | cons kv rest ih =>
    obtain ⟨k, v⟩ := kv
    by_cases hk : k = id
    · subst hk; simp [memSet, memLookup]
    · simp [memSet, memLookup, hk, ih]

theorem shouldSend_snd_lookup (st : Memory) (id : Nat) (b : Bool) :
    memLookup (shouldSendNotification st id b).2 id = some b := by
  unfold shouldSendNotification
  cases h : memLookup st id with
  | none => simpa using memLookup_memSet_self st id b
  | some last =>
    by_cases hb : last = b
    · subst hb; simpa using h
    · simpa [hb, bne_iff_ne] using memLookup_memSet_self st id b

/-! ### Per-iteration characterization lemmas

Each lemma pins the exact memory and event trace one loop iteration of
`MonitorServers` produces in one of its control-flow cases. -/

theorem processServer_skip (template : String) (now : Int) (st : Memory) (sv : Server)
    (w : HostWorld) (h : sv.monitoring = false ∨ sv.monitoringURL = none) :
    processServer template now st sv w = (st, []) := by
  unfold processServer
  rcases h with h | h
  · cases hu : sv.monitoringURL <;> simp [h, hu]
  · simp [h]

theorem processServer_cpuFail (template : String) (now : Int) (st : Memory)
    (id : Nat) (name url : String) (snap : Bool) (w : HostWorld)
    (h : (cpuResult w.cpu).1 = false) :
    processServer template now st ⟨id, name, true, some url, snap⟩ w =
      offlineOutcome template st ⟨id, name, true, some url, snap⟩
        [Event.get (trimSuffixSlash url ++ "/api/4/cpu")] := by
  simp [processServer, fetchCPUUsage, h]

theorem processServer_memFail (template : String) (now : Int) (st : Memory)
    (id : Nat) (name url : String) (snap : Bool) (w : HostWorld)
    (hc : (cpuResult w.cpu).1 = true) (hm : (memResult w.mem).1 = false) :
    processServer template now st ⟨id, name, true, some url, snap⟩ w =
      offlineOutcome template st ⟨id, name, true, some url, snap⟩
        [Event.get (trimSuffixSlash url ++ "/api/4/cpu"),
         Event.get (trimSuffixSlash url ++ "/api/4/uptime"),
         Event.get (trimSuffixSlash url ++ "/api/4/mem")] := by
  simp [processServer, fetchCPUUsage, fetchUptime, fetchMemoryUsage, hc, hm]

theorem processServer_diskFail (template : String) (now : Int) (st : Memory)
    (id : Nat) (name url : String) (snap : Bool) (w : HostWorld)
    (hc : (cpuResult w.cpu).1 = true) (hm : (memResult w.mem).1 = true)
    (hd : (diskResult w.fs).1 = false) :
    processServer template now st ⟨id, name, true, some url, snap⟩ w =
      offlineOutcome template st ⟨id, name, true, some url, snap⟩
        [Event.get (trimSuffixSlash url ++ "/api/4/cpu"),
         Event.get (trimSuffixSlash url ++ "/api/4/uptime"),
         Event.get (trimSuffixSlash url ++ "/api/4/mem"),
         Event.get (trimSuffixSlash url ++ "/api/4/fs")] := by
  simp [processServer, fetchCPUUsage, fetchUptime, fetchMemoryUsage, fetchDiskUsage, hc, hm, hd]

theorem processServer_allOk_snapTrue (template : String) (now : Int) (st : Memory)
    (id : Nat) (name url : String) (w : HostWorld)
    (hc : (cpuResult w.cpu).1 = true) (hm : (memResult w.mem).1 = true)
    (hd : (diskResult w.fs).1 = true) :
    processServer template now st ⟨id, name, true, some url, true⟩ w =
      (st, allGets url ++ onlineWrites now id w) := by
  simp [processServer, fetchCPUUsage, fetchUptime, fetchMemoryUsage, fetchDiskUsage,
    fetchGPUUsage, fetchTemperature, hc, hm, hd, allGets, onlineWrites]

theorem processServer_allOk_snapFalse (template : String) (now : Int) (st : Memory)
    (id : Nat) (name url : String) (w : HostWorld)
    (hc : (cpuResult w.cpu).1 = true) (hm : (memResult w.mem).1 = true)
    (hd : (diskResult w.fs).1 = true) :
    processServer template now st ⟨id, name, true, some url, false⟩ w =
      ((shouldSendNotification st id true).2,
        allGets url
          ++ (if (shouldSendNotification st id true).1 then
                [Event.notification (renderMessage template name true)]
              else [])
          ++ onlineWrites now id w) := by
  simp [processServer, fetchCPUUsage, fetchUptime, fetchMemoryUsage, fetchDiskUsage,
    fetchGPUUsage, fetchTemperature, hc, hm, hd, allGets, onlineWrites]

theorem processServer_all_offlineZeroed (template : String) (now : Int) (st : Memory)
    (sv : Server) (w : HostWorld) :
    ((processServer template now st sv w).2.all offlineZeroedB) = true := by
  obtain ⟨id, name, mon, murl, snap⟩ := sv
  cases mon with
  | false => rw [processServer_skip] <;> simp
  | true =>
    cases murl with
    | none => rw [processServer_skip] <;> simp
    | some url =>
      cases hc : (cpuResult w.cpu).1 with
      | false =>
        rw [processServer_cpuFail template now st id name url snap w hc]
        simp [offlineOutcome, offlineZeroedB]
      | true =>
        cases hm : (memResult w.mem).1 with
        | false =>
          rw [processServer_memFail template now st id name url snap w hc hm]
          simp [offlineOutcome, offlineZeroedB]
        | true =>
          cases hd : (diskResult w.fs).1 with
          | false =>
            rw [processServer_diskFail template now st id name url snap w hc hm hd]
            simp [offlineOutcome, offlineZeroedB]
          | true =>
            cases snap with
            | true =>
              rw [processServer_allOk_snapTrue template now st id name url w hc hm hd]
              simp [allGets, onlineWrites, offlineZeroedB]
            | false =>
              rw [processServer_allOk_snapFalse template now st id name url w hc hm hd]
              simp [allGets, onlineWrites, offlineZeroedB]

theorem monitorLoop_all_offlineZeroed (template : String) (now : Int) :
    ∀ (l : List (Server × HostWorld)) (st : Memory),
      ((monitorLoop template now st l).2.all offlineZeroedB) = true := by
  intro l
  induction l with
  | nil => intro st; simp [monitorLoop]
  | cons sw rest ih =>
    intro st
    simp only [monitorLoop, List.all_append]
    rw [processServer_all_offlineZeroed, ih]
    rfl

/-! ### Claims -/

/-- Claim C3: every offline outcome a cycle persists — status rows and
history entries alike — carries five zero metric values and an empty
uptime display; this holds for every host list, world, template row and
starting notification state. -/
theorem C3_offline_outcome_zeroed (templateRow : Option String) (now : Int) (st : Memory)
    (servers : List (Server × HostWorld)) :
    ((monitorServers templateRow now st servers).2.all offlineZeroedB) = true :=
  monitorLoop_all_offlineZeroed (resolveTemplate templateRow) now servers st

/-- Claim C4: the transition detector returns true exactly when the host id
has no recorded value equal to the passed boolean, it records the passed
boolean, and the first/repeat/flip call pattern behaves as specified. -/
theorem C4_transition_detector (st : Memory) (id : Nat) (b : Bool) :
    ((shouldSendNotification st id b).1 = true ↔ memLookup st id ≠ some b)
    ∧ memLookup (shouldSendNotification st id b).2 id = some b
    ∧ (shouldSendNotification [] id b).1 = true
    ∧ (shouldSendNotification (shouldSendNotification [] id b).2 id b).1 = false
    ∧ (shouldSendNotification
        (shouldSendNotification (shouldSendNotification [] id b).2 id b).2 id (!b)).1 = true := by
  refine ⟨?_, shouldSend_snd_lookup st id b, ?_, ?_, ?_⟩
  · rw [shouldSend_fst]
    cases h : memLookup st id with
    | none => simp
    | some v => by_cases hv : v = b <;> simp [hv]
  · simp [shouldSendNotification, memLookup]
  · simp [shouldSendNotification, memLookup, memSet]
  · simp [shouldSendNotification, memLookup, memSet]

/-- Claim C2 counterexample: an empty filesystem list is not reported as a
failure — the disk fetcher returns `ok = true` (with value 0) on it, so the
claim that it returns `ok = false` on an empty result list is false. -/
theorem C2_counterexample :
    (diskResult (HttpResult.resp { status := 200, body := some ([] : List FSEntry) })).1 = true
    ∧ (diskResult (HttpResult.resp { status := 200, body := some ([] : List FSEntry) })).2 = 0 := by
  exact ⟨rfl, rfl⟩

/-- Claim C2 (amended): the disk fetcher signals `ok = false` exactly on
transport error, non-200 status or decode failure; an empty filesystem
list is not a failure — it yields `ok = true` with value 0. -/
theorem C2_disk_required_failures (r : HttpResult (List FSEntry)) :
    ((diskResult r).1 = false ↔ httpFail r)
    ∧ diskResult (HttpResult.resp { status := 200, body := some [] }) = (true, 0) := by
  refine ⟨?_, rfl⟩
  cases r with
  | err => simp [diskResult, httpFail]
  | resp q =>
    by_cases h200 : q.status = 200
    · cases hb : q.body with
      | none => simp [diskResult, httpFail, h200, hb]
      | some l => cases l <;> simp [diskResult, httpFail, h200, hb]
    · simp [diskResult, httpFail, h200]

/-- Claim C10: the dispatched notification message substitutes every
`!name` occurrence first and every `!status` occurrence second, so a host
name containing `!status` has that occurrence replaced by the status word
as well (and inserted text is never rescanned for `!name`). -/
theorem C10_notification_message (template name : String) (online : Bool) :
    renderMessage template name online
      = replaceAll (replaceAll template "!name" name) "!status" (statusWord online)
    ∧ renderMessage "The server !name is now !status!" "db!status" true
      = "The server dbonline is now online!"
    ∧ renderMessage "The server !name is now !status!" "db!status" false
      = "The server dboffline is now offline!" :=
  ⟨rfl, by decide, by decide⟩

/-- Claim C5: when the CPU fetch fails, the iteration's whole trace is the
single CPU GET followed by the zeroed offline status write, the
detector-gated notification and the zeroed history entry — no other
fetcher (memory, disk, GPU, temperature or uptime) is ever invoked. -/
theorem C5_cpu_short_circuit (template : String) (now : Int) (st : Memory) (id : Nat)
    (name url : String) (snap : Bool) (w : HostWorld)
    (h : (cpuResult w.cpu).1 = false) :
    processServer template now st ⟨id, name, true, some url, snap⟩ w =
      ((shouldSendNotification st id false).2,
        [Event.get (trimSuffixSlash url ++ "/api/4/cpu"),
         Event.statusUpdate id false 0 0 0 0 0 ""]
          ++ (if (shouldSendNotification st id false).1 then
                [Event.notification (renderMessage template name false)]
              else [])
          ++ [Event.historyEntry id false 0 0 0 0 0]) := by
  rw [processServer_cpuFail template now st id name url snap w h]
  simp [offlineOutcome]

/-- Claim C5 witness: a transport error on the CPU endpoint, probed with an
empty notification state, produces exactly the CPU GET, the zeroed
offline writes and one notification. -/
theorem C5_cpu_short_circuit_witness :
    (cpuResult (HttpResult.err : HttpResult CPUResponse)).1 = false
    ∧ processServer "T" 0 [] ⟨5, "n", true, some "http://h/", true⟩
        ⟨HttpResult.err, HttpResult.err, HttpResult.err, HttpResult.err, HttpResult.err,
         HttpResult.err⟩ =
      ([(5, false)],
        [Event.get "http://h/api/4/cpu", Event.statusUpdate 5 false 0 0 0 0 0 "",
         Event.notification "T", Event.historyEntry 5 false 0 0 0 0 0]) :=
  ⟨rfl,
    (C5_cpu_short_circuit "T" 0 [] 5 "n" "http://h/" true
        ⟨HttpResult.err, HttpResult.err, HttpResult.err, HttpResult.err, HttpResult.err,
         HttpResult.err⟩ rfl).trans (by decide)⟩

theorem processServer_persist_counts (template : String) (now : Int) (st : Memory)
    (sv : Server) (w : HostWorld) :
    ((processServer template now st sv w).2.filter isStatusEvent).length
        = (if sv.monitoring && sv.monitoringURL.isSome then 1 else 0)
    ∧ ((processServer template now st sv w).2.filter isHistoryEvent).length
        = (if sv.monitoring && sv.monitoringURL.isSome then 1 else 0) := by
  obtain ⟨id, name, mon, murl, snap⟩ := sv
  cases mon with
  | false => rw [processServer_skip] <;> simp
  | true =>
    cases murl with
    | none => rw [processServer_skip] <;> simp
    | some url =>
      cases hc : (cpuResult w.cpu).1 with
      | false =>
        rw [processServer_cpuFail template now st id name url snap w hc]
        simp [offlineOutcome, isStatusEvent, isHistoryEvent]
      | true =>
        cases hm : (memResult w.mem).1 with
        | false =>
          rw [processServer_memFail template now st id name url snap w hc hm]
          simp [offlineOutcome, isStatusEvent, isHistoryEvent]
        | true =>
          cases hd : (diskResult w.fs).1 with
          | false =>
            rw [processServer_diskFail template now st id name url snap w hc hm hd]
            simp [offlineOutcome, isStatusEvent, isHistoryEvent]
          | true =>
            cases snap with
            | true =>
              rw [processServer_allOk_snapTrue template now st id name url w hc hm hd]
              simp [allGets, onlineWrites, isStatusEvent, isHistoryEvent]
            | false =>
              rw [processServer_allOk_snapFalse template now st id name url w hc hm hd]
              simp [allGets, onlineWrites, isStatusEvent, isHistoryEvent]

theorem processServer_forHost_counts (template : String) (now : Int) (st : Memory)
    (id : Nat) (name url : String) (snap : Bool) (w : HostWorld) :
    ((processServer template now st ⟨id, name, true, some url, snap⟩ w).2.filter
        (isStatusForHost id)).length = 1
    ∧ ((processServer template now st ⟨id, name, true, some url, snap⟩ w).2.filter
        (isHistoryForHost id)).length = 1 := by
  cases hc : (cpuResult w.cpu).1 with
  | false =>
    rw [processServer_cpuFail template now st id name url snap w hc]
    simp [offlineOutcome, isStatusForHost, isHistoryForHost]
  | true =>
    cases hm : (memResult w.mem).1 with
    | false =>
      rw [processServer_memFail template now st id name url snap w hc hm]
      simp [offlineOutcome, isStatusForHost, isHistoryForHost]
    | true =>
      cases hd : (diskResult w.fs).1 with
      | false =>
        rw [processServer_diskFail template now st id name url snap w hc hm hd]
        simp [offlineOutcome, isStatusForHost, isHistoryForHost]
      | true =>
        cases snap with
        | true =>
          rw [processServer_allOk_snapTrue template now st id name url w hc hm hd]
          simp [allGets, onlineWrites, isStatusForHost, isHistoryForHost]
        | false =>
          rw [processServer_allOk_snapFalse template now st id name url w hc hm hd]
          simp [allGets, onlineWrites, isStatusForHost, isHistoryForHost]

theorem monitorLoop_persist_counts (template : String) (now : Int) :
    ∀ (l : List (Server × HostWorld)) (st : Memory),
      ((monitorLoop template now st l).2.filter isStatusEvent).length
          = (l.filter (fun p => p.1.monitoring && p.1.monitoringURL.isSome)).length
      ∧ ((monitorLoop template now st l).2.filter isHistoryEvent).length
          = (l.filter (fun p => p.1.monitoring && p.1.monitoringURL.isSome)).length := by
  intro l
  induction l with
  | nil => intro st; simp [monitorLoop]
  | cons sw rest ih =>
    intro st
    simp only [monitorLoop, List.filter_append, List.length_append]
    rw [(processServer_persist_counts template now st sw.1 sw.2).1,
      (processServer_persist_counts template now st sw.1 sw.2).2,
      (ih _).1, (ih _).2]
    cases h : sw.1.monitoring && sw.1.monitoringURL.isSome with
    | false => simp [List.filter_cons, h]
    | true => simp [List.filter_cons, h, Nat.add_comm]

/-- Claim C6: a host that is monitored and has a monitoring URL gets
exactly one status-row update and exactly one history append per
iteration, whatever the probe outcome or notification decision; and over
a whole cycle the number of status updates and of history appends each
equals the number of non-skipped hosts. -/
theorem C6_exactly_one_persist (template : String) (now : Int) (st : Memory) (id : Nat)
    (name url : String) (snap : Bool) (w : HostWorld) (templateRow : Option String)
    (servers : List (Server × HostWorld)) :
    (((processServer template now st ⟨id, name, true, some url, snap⟩ w).2.filter
          (isStatusForHost id)).length = 1
      ∧ ((processServer template now st ⟨id, name, true, some url, snap⟩ w).2.filter
          (isHistoryForHost id)).length = 1)
    ∧ (((monitorServers templateRow now st servers).2.filter isStatusEvent).length
          = (servers.filter (fun p => p.1.monitoring && p.1.monitoringURL.isSome)).length
      ∧ ((monitorServers templateRow now st servers).2.filter isHistoryEvent).length
          = (servers.filter (fun p => p.1.monitoring && p.1.monitoringURL.isSome)).length) :=
  ⟨processServer_forHost_counts template now st id name url snap w,
    monitorLoop_persist_counts (resolveTemplate templateRow) now servers st⟩

/-- Claim C9: the GPU and temperature fetchers report `ok = true` in every
case, with value 0 on transport error, non-200 status, decode failure or
(for temperature) an empty sensor list; and a host whose CPU, memory and
disk fetches succeed stays `online = true` with `gpuUsage = 0` when the
GPU fetch fails. -/
theorem C9_optional_metric_tolerance
    (rg : HttpResult GPUResponse) (rt : HttpResult TemperatureResponse)
    (template : String) (now : Int) (st : Memory) (id : Nat) (name url : String) (snap : Bool)
    (cv mv dv : Rat) (fsRest : List FSEntry) (ru : HttpResult UptimeBody) :
    ((gpuResult rg).1 = true)
    ∧ ((tempResult rt).1 = true)
    ∧ (httpFail rg → (gpuResult rg).2 = 0)
    ∧ (httpFail rt ∨ tempDecodesEmpty rt → (tempResult rt).2 = 0)
    ∧ (httpFail rg →
        ((processServer template now st ⟨id, name, true, some url, snap⟩
            ⟨HttpResult.resp ⟨200, some ⟨cv⟩⟩, ru, HttpResult.resp ⟨200, some ⟨mv⟩⟩,
             HttpResult.resp ⟨200, some (⟨dv⟩ :: fsRest)⟩, rg, rt⟩).2.filter isStatusEvent)
          = [Event.statusUpdate id true cv mv dv 0 (tempResult rt).2 (uptimeResult now ru)]) := by
  have hgv : httpFail rg → (gpuResult rg).2 = 0 := by
    intro hf
    cases rg with
    | err => rfl
    | resp q =>
      rcases hf with h | h
      · simp [gpuResult, h]
      · by_cases h200 : q.status = 200 <;> simp [gpuResult, h, h200]
  refine ⟨?_, ?_, hgv, ?_, ?_⟩
  · cases rg with
    | err => rfl
    | resp q =>
      by_cases h200 : q.status = 200 <;> cases hb : q.body <;> simp [gpuResult, h200, hb]
  · cases rt with
    | err => rfl
    | resp q =>
      by_cases h200 : q.status = 200
      · cases hb : q.body with
        | none => simp [tempResult, h200, hb]
        | some d => cases hcd : d.composite <;> simp [tempResult, h200, hb, hcd]
      · simp [tempResult, h200]
  · intro hf
    cases rt with
    | err => rfl
    | resp q =>
      rcases hf with (h | h) | h
      · simp [tempResult, h]
      · by_cases h200 : q.status = 200 <;> simp [tempResult, h, h200]
      · have hq : tempDecodesEmpty (HttpResult.resp q) = (match q.body with
            | some d => d.composite = []
            | none => False) := rfl
        rw [hq] at h
        cases hb : q.body with
        | none =>
          rw [hb] at h
          exact (h : False).elim
        | some d =>
          rw [hb] at h
          have hd2 : d.composite = [] := h
          by_cases h200 : q.status = 200 <;> simp [tempResult, h200, hb, hd2]
  · intro hf
    have hgpu : gpuResult rg = (true, 0) := by
      have h1 : (gpuResult rg).1 = true := by
        cases rg with
        | err => rfl
        | resp q =>
          by_cases h200 : q.status = 200 <;> cases hb : q.body <;> simp [gpuResult, h200, hb]
      have h2 := hgv hf
      rw [Prod.ext_iff]
      exact ⟨h1, h2⟩
    cases snap with
    | true =>
      rw [processServer_allOk_snapTrue template now st id name url
        (⟨HttpResult.resp ⟨200, some ⟨cv⟩⟩, ru, HttpResult.resp ⟨200, some ⟨mv⟩⟩,
             HttpResult.resp ⟨200, some (⟨dv⟩ :: fsRest)⟩, rg, rt⟩) rfl rfl rfl]
      simp [allGets, onlineWrites, isStatusEvent, cpuResult, memResult, diskResult, hgpu]
    | false =>
      rw [processServer_allOk_snapFalse template now st id name url
        (⟨HttpResult.resp ⟨200, some ⟨cv⟩⟩, ru, HttpResult.resp ⟨200, some ⟨mv⟩⟩,
             HttpResult.resp ⟨200, some (⟨dv⟩ :: fsRest)⟩, rg, rt⟩) rfl rfl rfl]
      by_cases hns : (shouldSendNotification st id true).1 <;>
        simp [allGets, onlineWrites, isStatusEvent, cpuResult, memResult, diskResult, hgpu, hns]

/-- Claim C1 counterexample: a host whose persisted snapshot is online and
whose probe succeeds, checked right after a restart (empty notification
state), produces no notification even though the transition detector,
consulted on that state, would report a notifiable transition. -/
theorem C1_counterexample :
    notifEvents (processServer "The server !name is now !status!" 0 []
        ⟨1, "srv", true, some "http://h", true⟩
        ⟨HttpResult.resp ⟨200, some ⟨50⟩⟩, HttpResult.err, HttpResult.resp ⟨200, some ⟨40⟩⟩,
         HttpResult.resp ⟨200, some [⟨30⟩]⟩, HttpResult.err, HttpResult.err⟩).2 = []
    ∧ (shouldSendNotification [] 1 true).1 = true := by
  exact ⟨by decide, by decide⟩

/-- Claim C1 (amended): on the required-failure paths the orchestrator
always consults the detector and notifies exactly when it reports a
transition; on the success path the detector is consulted only when the
probed status differs from the persisted snapshot, so a notification is
dispatched exactly when the snapshot records offline and the detector
reports a transition — hence the first probe after a restart notifies
unless the host probes online with an online snapshot. -/
theorem C1_dispatch_characterization (template : String) (now : Int) (st : Memory) (id : Nat)
    (name url : String) (snap : Bool) (w : HostWorld) :
    notifEvents (processServer template now st ⟨id, name, true, some url, snap⟩ w).2 =
      if (cpuResult w.cpu).1 = false ∨ (memResult w.mem).1 = false ∨ (diskResult w.fs).1 = false
      then
        (if memLookup st id = some false then []
         else [Event.notification (renderMessage template name false)])
      else
        (if snap = false ∧ memLookup st id ≠ some true then
          [Event.notification (renderMessage template name true)]
         else []) := by
  cases hc : (cpuResult w.cpu).1 with
  | false =>
    rw [processServer_cpuFail template now st id name url snap w hc, if_pos (Or.inl rfl)]
    simp only [offlineOutcome, notifEvents, List.filter_append]
    rw [shouldSend_fst]
    rcases hl : memLookup st id with _ | b
    · simp [isNotifEvent]
    · cases b <;> simp [isNotifEvent]
  | true =>
    cases hm : (memResult w.mem).1 with
    | false =>
      rw [processServer_memFail template now st id name url snap w hc hm,
        if_pos (Or.inr (Or.inl rfl))]
      simp only [offlineOutcome, notifEvents, List.filter_append]
      rw [shouldSend_fst]
      rcases hl : memLookup st id with _ | b
      · simp [isNotifEvent]
      · cases b <;> simp [isNotifEvent]
    | true =>
      cases hd : (diskResult w.fs).1 with
      | false =>
        rw [processServer_diskFail template now st id name url snap w hc hm hd,
          if_pos (Or.inr (Or.inr rfl))]
        simp only [offlineOutcome, notifEvents, List.filter_append]
        rw [shouldSend_fst]
        rcases hl : memLookup st id with _ | b
        · simp [isNotifEvent]
        · cases b <;> simp [isNotifEvent]
      | true =>
        rw [if_neg (by simp)]
        cases snap with
        | true =>
          rw [processServer_allOk_snapTrue template now st id name url w hc hm hd]
          simp [notifEvents, allGets, onlineWrites, isNotifEvent]
        | false =>
          rw [processServer_allOk_snapFalse template now st id name url w hc hm hd]
          simp only [notifEvents, allGets, onlineWrites, List.filter_append]
          rw [shouldSend_fst]
          rcases hl : memLookup st id with _ | b
          · simp [isNotifEvent]
          · cases b <;> simp [isNotifEvent]

/-! ### Digit and numeral lemmas for the uptime round trip -/

theorem digitChar_toNat (d : Nat) (h : d < 10) : (digitChar d).toNat = 48 + d := by
  interval_cases d <;> rfl

theorem isDigitChar_digitChar (d : Nat) (h : d < 10) : isDigitChar (digitChar d) = true := by
  interval_cases d <;> decide

theorem isDigitChar_facts (c : Char) (h : isDigitChar c = true) :
    c ≠ ',' ∧ c ≠ ':' ∧ c ≠ '-' ∧ c ≠ '+' ∧ c ≠ '\n' ∧ isSpaceNotNL c = false := by
  refine ⟨?_, ?_, ?_, ?_, ?_, ?_⟩
  · intro e; rw [e] at h; exact absurd h (by decide)
  · intro e; rw [e] at h; exact absurd h (by decide)
  · intro e; rw [e] at h; exact absurd h (by decide)
  · intro e; rw [e] at h; exact absurd h (by decide)
  · intro e; rw [e] at h; exact absurd h (by decide)
  · cases hs : isSpaceNotNL c with
    | false => rfl
    | true =>
      exfalso
      have hmem : c = ' ' ∨ c = '\t' ∨ c = '\x0b' ∨ c = '\x0c' ∨ c = '\r' := by
        simpa [isSpaceNotNL, or_assoc] using hs
      rcases hmem with rfl | rfl | rfl | rfl | rfl <;> exact absurd h (by decide)

theorem natReprAux_ne_nil (fuel n : Nat) (h : 0 < fuel) : natReprAux fuel n ≠ [] := by
  cases fuel with
  | zero => omega
  | succ f =>
    unfold natReprAux
    by_cases h10 : n < 10 <;> simp [h10]

theorem natReprAux_digits (fuel : Nat) : ∀ n, n < fuel →
    ∀ c ∈ natReprAux fuel n, isDigitChar c = true := by
  induction fuel with
  | zero => intro n hn; omega
  | succ f ih =>
    intro n hn c hc
    unfold natReprAux at hc
    by_cases h10 : n < 10
    · simp [h10] at hc
      rw [hc]
      exact isDigitChar_digitChar n h10
    · simp [h10] at hc
      rcases hc with hc | hc
      · exact ih (n / 10) (by omega) c hc
      · rw [hc]
        exact isDigitChar_digitChar (n % 10) (Nat.mod_lt n (by omega))

theorem digitsValAcc_append (a b : List Char) (acc : Nat) :
    digitsValAcc (a ++ b) acc = digitsValAcc b (digitsValAcc a acc) := by
  induction a generalizing acc with
  | nil => rfl
  | cons c cs ih =>
    simp only [List.cons_append, digitsValAcc]
    exact ih _

theorem natReprAux_val (fuel : Nat) : ∀ n, n < fuel → ∀ acc,
    digitsValAcc (natReprAux fuel n) acc = acc * 10 ^ (natReprAux fuel n).length + n := by
  induction fuel with
  | zero => intro n hn; omega
  | succ f ih =>
    intro n hn acc
    unfold natReprAux
    by_cases h10 : n < 10
    · simp only [h10, if_true]
      simp [digitsValAcc, digitChar_toNat n h10]
    · simp only [h10, if_false]
      rw [digitsValAcc_append, List.length_append,
        ih (n / 10) (by have := Nat.div_lt_self (by omega : 0 < n) (by omega : 1 < 10); omega) acc]
      simp only [digitsValAcc, List.length_cons, List.length_nil]
      rw [digitChar_toNat (n % 10) (Nat.mod_lt n (by omega))]
      have hdm := Nat.div_add_mod n 10
      have hpow : 10 ^ ((natReprAux f (n / 10)).length + (0 + 1))
          = 10 ^ (natReprAux f (n / 10)).length * 10 := by
        rw [Nat.zero_add, Nat.pow_succ]
      rw [hpow, ← Nat.mul_assoc]
      have hcancel : 48 + n % 10 - 48 = n % 10 := by omega
      rw [hcancel]
      set k := 10 ^ (natReprAux f (n / 10)).length
      omega

theorem natReprChars_digits (n : Nat) : ∀ c ∈ natReprChars n, isDigitChar c = true :=
  natReprAux_digits (n + 1) n (Nat.lt_succ_self n)

theorem natReprChars_ne_nil (n : Nat) : natReprChars n ≠ [] :=
  natReprAux_ne_nil (n + 1) n (Nat.succ_pos n)

theorem natReprChars_val (n : Nat) : digitsValAcc (natReprChars n) 0 = n := by
  rw [natReprChars, natReprAux_val (n + 1) n (Nat.lt_succ_self n) 0]
  simp

theorem pad2Chars_digits (n : Nat) : ∀ c ∈ pad2Chars n, isDigitChar c = true := by
  intro c hc
  unfold pad2Chars at hc
  by_cases h10 : n < 10
  · simp [h10] at hc
    rcases hc with hc | hc
    · rw [hc]; decide
    · exact natReprChars_digits n c hc
  · simp [h10] at hc
    exact natReprChars_digits n c hc

theorem pad2Chars_ne_nil (n : Nat) : pad2Chars n ≠ [] := by
  unfold pad2Chars
  by_cases h10 : n < 10 <;> simp [h10, natReprChars_ne_nil]

theorem pad2Chars_val (n : Nat) : digitsValAcc (pad2Chars n) 0 = n := by
  unfold pad2Chars
  by_cases h10 : n < 10
  · simp only [h10, if_true]
    have : digitsValAcc ('0' :: natReprChars n) 0 = digitsValAcc (natReprChars n) 0 := by
      simp [digitsValAcc]
    rw [this, natReprChars_val]
  · simp only [h10, if_false]
    exact natReprChars_val n

theorem takeDigits_append (ds rest : List Char)
    (hds : ∀ c ∈ ds, isDigitChar c = true)
    (hrest : ∀ c cs2, rest = c :: cs2 → isDigitChar c = false) :
    takeDigits (ds ++ rest) = (ds, rest) := by
  induction ds with
  | nil =>
    cases rest with
    | nil => rfl
    | cons c cs2 => simp [takeDigits, hrest c cs2 rfl]
  | cons c ds2 ih =>
    have hc : isDigitChar c = true := hds c (by simp)
    have ih2 := ih (fun c2 hc2 => hds c2 (by simp [hc2]))
    simp [takeDigits, hc, ih2]

theorem scanNat_of_digits (ds rest : List Char)
    (hds : ∀ c ∈ ds, isDigitChar c = true) (hne : ds ≠ [])
    (hrest : ∀ c cs2, rest = c :: cs2 → isDigitChar c = false) :
    scanNat (ds ++ rest) = some (digitsValAcc ds 0, rest) := by
  obtain ⟨c, cs, rfl⟩ := List.exists_cons_of_ne_nil hne
  have ht := takeDigits_append (c :: cs) rest hds hrest
  rw [List.cons_append] at ht
  simp [scanNat, ht]

theorem headNotDigit_cons (c0 : Char) (h : isDigitChar c0 = false) (t : List Char) :
    ∀ c cs2, (c0 :: t) = c :: cs2 → isDigitChar c = false := by
  intro c cs2 e
  injection e with e1 e2
  rw [← e1]
  exact h

theorem headNotDigit_nil : ∀ (c : Char) (cs2 : List Char), ([] : List Char) = c :: cs2 →
    isDigitChar c = false := by
  intro c cs2 e
  exact absurd e (by simp)

theorem scanIntGo_digits (ds rest : List Char)
    (hds : ∀ c ∈ ds, isDigitChar c = true) (hne : ds ≠ [])
    (hrest : ∀ c cs2, rest = c :: cs2 → isDigitChar c = false)
    (hval : digitsValAcc ds 0 ≤ 9223372036854775807) :
    scanIntGo (ds ++ rest) = some ((digitsValAcc ds 0 : Int), rest) := by
  obtain ⟨c, cs, rfl⟩ := List.exists_cons_of_ne_nil hne
  have hc : isDigitChar c = true := hds c (by simp)
  obtain ⟨-, -, h3, h4, h5, h6⟩ := isDigitChar_facts c hc
  have hskip : skipSpaceScanf ((c :: cs) ++ rest) = some (c :: (cs ++ rest)) := by
    simp [skipSpaceScanf, h5, h6]
  rw [scanIntGo, hskip]
  simp only [h3, h4, if_false]
  rw [show c :: (cs ++ rest) = (c :: cs) ++ rest from rfl,
    scanNat_of_digits (c :: cs) rest hds (by simp) hrest]
  simp only [if_pos hval]

theorem scanIntGo_natRepr (n : Nat) (hn : n ≤ 9223372036854775807) (rest : List Char)
    (hrest : ∀ c cs2, rest = c :: cs2 → isDigitChar c = false) :
    scanIntGo (natReprChars n ++ rest) = some ((n : Int), rest) := by
  rw [scanIntGo_digits (natReprChars n) rest (natReprChars_digits n) (natReprChars_ne_nil n)
    hrest (by rw [natReprChars_val]; exact hn), natReprChars_val]

theorem scanIntGo_pad2 (n : Nat) (hn : n ≤ 9223372036854775807) (rest : List Char)
    (hrest : ∀ c cs2, rest = c :: cs2 → isDigitChar c = false) :
    scanIntGo (pad2Chars n ++ rest) = some ((n : Int), rest) := by
  rw [scanIntGo_digits (pad2Chars n) rest (pad2Chars_digits n) (pad2Chars_ne_nil n) hrest
    (by rw [pad2Chars_val]; exact hn), pad2Chars_val]

theorem scanDaysGo_plural (n : Nat) (hn : n ≤ 9223372036854775807) :
    scanDaysGo (natReprChars n ++ (' ' :: ['d', 'a', 'y', 's'])) = some (n : Int) := by
  unfold scanDaysGo scanDayLit
  rw [scanIntGo_natRepr n hn _ (headNotDigit_cons ' ' (by decide) _)]
  rfl

theorem scanDaysGo_singular (n : Nat) (hn : n ≤ 9223372036854775807) :
    scanDaysGo (natReprChars n ++ (' ' :: ['d', 'a', 'y'])) = some (n : Int) := by
  unfold scanDaysGo scanDayLit
  rw [scanIntGo_natRepr n hn _ (headNotDigit_cons ' ' (by decide) _)]
  rfl

theorem scanHMS_hmsChars (h m s : Nat) (hh : h ≤ 9223372036854775807)
    (hm : m ≤ 9223372036854775807) (hs : s ≤ 9223372036854775807) :
    scanHMS (hmsChars h m s) = some ((h : Int), (m : Int), (s : Int)) := by
  unfold scanHMS hmsChars
  rw [scanIntGo_natRepr h hh _ (headNotDigit_cons ':' (by decide) _)]
  dsimp only
  rw [if_pos rfl]
  rw [scanIntGo_pad2 m hm _ (headNotDigit_cons ':' (by decide) _)]
  dsimp only
  rw [if_pos rfl]
  rw [← List.append_nil (pad2Chars s), scanIntGo_pad2 s hs [] headNotDigit_nil]

/-! ### Split lemmas for the `", "` separator -/

theorem findSub_commaSpace_boundary (a b : List Char) (ha : ',' ∉ a) :
    findSub [',', ' '] (a ++ ',' :: ' ' :: b) = some (a, b) := by
  induction a with
  | nil => simp [findSub, startsWith]
  | cons c a2 ih =>
    have hc : c ≠ ',' := fun e => ha (by simp [e])
    have hsw : startsWith [',', ' '] (c :: (a2 ++ ',' :: ' ' :: b)) = false := by
      simp [startsWith, Ne.symm hc]
    simp [findSub, hsw, ih (fun hmem => ha (by simp [hmem]))]

theorem findSub_commaSpace_none (s : List Char) (hs : ',' ∉ s) :
    findSub [',', ' '] s = none := by
  induction s with
  | nil => rfl
  | cons c s2 ih =>
    have hc : c ≠ ',' := fun e => hs (by simp [e])
    have hsw : startsWith [',', ' '] (c :: s2) = false := by
      simp [startsWith, Ne.symm hc]
    simp [findSub, hsw, ih (fun hmem => hs (by simp [hmem]))]

theorem splitSepFuel_no_comma (s : List Char) (hs : ',' ∉ s) (fuel : Nat) :
    splitSepFuel [',', ' '] fuel s = [s] := by
  cases fuel with
  | zero => rfl
  | succ f => simp [splitSepFuel, findSub_commaSpace_none s hs]

theorem splitSep_single (s : List Char) (hs : ',' ∉ s) : splitSep [',', ' '] s = [s] :=
  splitSepFuel_no_comma s hs s.length

theorem splitSep_two (a b : List Char) (ha : ',' ∉ a) (hb : ',' ∉ b) :
    splitSep [',', ' '] (a ++ ',' :: ' ' :: b) = [a, b] := by
  unfold splitSep
  have hlen : (a ++ ',' :: ' ' :: b).length = (a.length + b.length + 1) + 1 := by
    simp [List.length_append]
    omega
  rw [hlen]
  simp only [splitSepFuel, findSub_commaSpace_boundary a b ha,
    findSub_commaSpace_none b hb]

/-! ### No-comma facts for the constructed uptime inputs -/

theorem natReprChars_not_comma (n : Nat) : ',' ∉ natReprChars n := by
  intro hmem
  exact absurd (natReprChars_digits n ',' hmem) (by decide)

theorem pad2Chars_not_comma (n : Nat) : ',' ∉ pad2Chars n := by
  intro hmem
  exact absurd (pad2Chars_digits n ',' hmem) (by decide)

theorem hmsChars_not_comma (h m s : Nat) : ',' ∉ hmsChars h m s := by
  unfold hmsChars
  intro hmem
  simp only [List.mem_append, List.mem_cons] at hmem
  rcases hmem with hc | hc | hc
  · exact natReprChars_not_comma h hc
  · exact absurd hc (by decide)
  · rcases hc with hc | hc | hc
    · exact pad2Chars_not_comma m hc
    · exact absurd hc (by decide)
    · exact pad2Chars_not_comma s hc

theorem dayWord_not_comma (n : Nat) (tail : List Char) (htail : ',' ∉ tail) :
    ',' ∉ natReprChars n ++ tail := by
  intro hmem
  rcases List.mem_append.mp hmem with hc | hc
  · exact natReprChars_not_comma n hc
  · exact htail hc

theorem parseUptimeComponents_plural (n h m s : Nat)
    (hn : n ≤ 9223372036854775807) (hh : h ≤ 9223372036854775807)
    (hm : m ≤ 9223372036854775807) (hs : s ≤ 9223372036854775807) :
    parseUptimeComponents (mkUptimePlural n h m s).data
      = some ((n : Int), (h : Int), (m : Int), (s : Int)) := by
  show parseUptimeComponents
    ((natReprChars n ++ (' ' :: ['d', 'a', 'y', 's'])) ++ ',' :: ' ' :: hmsChars h m s) = _
  unfold parseUptimeComponents
  rw [splitSep_two _ _ (dayWord_not_comma n _ (by decide)) (hmsChars_not_comma h m s)]
  dsimp only
  rw [scanDaysGo_plural n hn]
  dsimp only
  rw [scanHMS_hmsChars h m s hh hm hs]

theorem parseUptimeComponents_singular (n h m s : Nat)
    (hn : n ≤ 9223372036854775807) (hh : h ≤ 9223372036854775807)
    (hm : m ≤ 9223372036854775807) (hs : s ≤ 9223372036854775807) :
    parseUptimeComponents (mkUptimeSingular n h m s).data
      = some ((n : Int), (h : Int), (m : Int), (s : Int)) := by
  show parseUptimeComponents
    ((natReprChars n ++ (' ' :: ['d', 'a', 'y'])) ++ ',' :: ' ' :: hmsChars h m s) = _
  unfold parseUptimeComponents
  rw [splitSep_two _ _ (dayWord_not_comma n _ (by decide)) (hmsChars_not_comma h m s)]
  dsimp only
  rw [scanDaysGo_singular n hn]
  dsimp only
  rw [scanHMS_hmsChars h m s hh hm hs]

theorem parseUptimeComponents_timeOnly (h m s : Nat)
    (hh : h ≤ 9223372036854775807) (hm : m ≤ 9223372036854775807)
    (hs : s ≤ 9223372036854775807) :
    parseUptimeComponents (mkUptimeTimeOnly h m s).data
      = some (0, (h : Int), (m : Int), (s : Int)) := by
  show parseUptimeComponents (hmsChars h m s) = _
  unfold parseUptimeComponents
  rw [splitSep_single _ (hmsChars_not_comma h m s)]
  dsimp only
  rw [scanHMS_hmsChars h m s hh hm hs]

/-! ### The int64 duration within range -/

theorem int64Wrap_eq_self (x : Int) (h1 : -9223372036854775808 ≤ x)
    (h2 : x ≤ 9223372036854775807) : int64Wrap x = x := by
  unfold int64Wrap
  rw [Int.emod_eq_of_lt (by omega) (by omega)]
  omega

theorem goDurationNs_exact (d h m s : Int) (hd : 0 ≤ d) (hh : 0 ≤ h) (hm : 0 ≤ m)
    (hs : 0 ≤ s)
    (hb : (d * 86400 + h * 3600 + m * 60 + s) * 1000000000 ≤ 9223372036854775807) :
    goDurationNs d h m s = (d * 86400 + h * 3600 + m * 60 + s) * 1000000000 := by
  unfold goDurationNs
  dsimp only
  rw [int64Wrap_eq_self (d * 24) (by omega) (by omega),
    int64Wrap_eq_self (d * 24 * 3600000000000) (by omega) (by omega),
    int64Wrap_eq_self (h * 3600000000000) (by omega) (by omega),
    int64Wrap_eq_self (m * 60000000000) (by omega) (by omega),
    int64Wrap_eq_self (s * 1000000000) (by omega) (by omega),
    int64Wrap_eq_self (d * 24 * 3600000000000 + h * 3600000000000) (by omega) (by omega),
    int64Wrap_eq_self (d * 24 * 3600000000000 + h * 3600000000000 + m * 60000000000)
      (by omega) (by omega),
    int64Wrap_eq_self
      (d * 24 * 3600000000000 + h * 3600000000000 + m * 60000000000 + s * 1000000000)
      (by omega) (by omega)]
  ring

theorem goTimeAddSec_neg_exact (now secs : Int) (h0 : 0 ≤ secs)
    (hb : secs * 1000000000 ≤ 9223372036854775807) :
    goTimeAddSec now (int64Wrap (-(secs * 1000000000))) = now - secs := by
  rw [int64Wrap_eq_self _ (by omega) (by omega)]
  unfold goTimeAddSec
  rw [show -(secs * 1000000000) = -secs * 1000000000 from by ring]
  rw [Int.mul_tdiv_cancel _ (by norm_num), Int.mul_tmod_left]
  simp
  omega

/-- Claim C7 counterexample: at `"106752 days, 0:00:00"` the int64
`time.Duration` product wraps (9223372800000000000 ns exceeds
`2^63 - 1`), and the program renders a far-future instant instead of
`now` minus the duration — refuting the claim for every well-formed
input. -/
theorem C7_counterexample :
    formatUptime 0 "106752 days, 0:00:00" = goFormatTime 9223371273
    ∧ goFormatTime (0 - 106752 * 86400) = goFormatTime (-9223372800)
    ∧ formatUptime 0 "106752 days, 0:00:00" ≠ goFormatTime (0 - 106752 * 86400) := by
  exact ⟨by decide, by decide, by decide⟩

/-- Claim C7 (amended): on every well-formed input `"<N> days, H:MM:SS"`,
`"<N> day, H:MM:SS"` or `"H:MM:SS"` whose total duration fits in int64
nanoseconds (duration · 10⁹ ≤ 2⁶³ − 1, about 106751 days), the uptime
normalizer returns the instant `now` minus the encoded duration, rendered
in the fixed `day.month hour:minute` layout — in particular
`"3 days, 3:52:36"` yields `now - 273156` seconds so rendered; beyond
that bound Go's `time.Duration` arithmetic wraps. -/
theorem C7_uptime_round_trip (now : Int) (n h m s : Nat)
    (hbound : uptimeSeconds n h m s * 1000000000 ≤ 9223372036854775807) :
    formatUptime now (mkUptimePlural n h m s) = goFormatTime (now - uptimeSeconds n h m s)
    ∧ formatUptime now (mkUptimeSingular n h m s) = goFormatTime (now - uptimeSeconds n h m s)
    ∧ formatUptime now (mkUptimeTimeOnly h m s) = goFormatTime (now - uptimeSeconds 0 h m s)
    ∧ formatUptime now "3 days, 3:52:36" = goFormatTime (now - 273156) := by
  have hb : ((n : Int) * 86400 + (h : Int) * 3600 + (m : Int) * 60 + (s : Int)) * 1000000000
      ≤ 9223372036854775807 := hbound
  have hn : n ≤ 9223372036854775807 := by omega
  have hh : h ≤ 9223372036854775807 := by omega
  have hm : m ≤ 9223372036854775807 := by omega
  have hs : s ≤ 9223372036854775807 := by omega
  have core : ∀ d2 h2 m2 s2 : Nat,
      (((d2 : Int) * 86400 + (h2 : Int) * 3600 + (m2 : Int) * 60 + (s2 : Int)) * 1000000000
        ≤ 9223372036854775807) →
      goFormatTime (goTimeAddSec now (int64Wrap
          (-goDurationNs (d2 : Int) (h2 : Int) (m2 : Int) (s2 : Int))))
        = goFormatTime (now - uptimeSeconds d2 h2 m2 s2) := by
    intro d2 h2 m2 s2 hb2
    rw [goDurationNs_exact _ _ _ _ (by positivity) (by positivity) (by positivity)
      (by positivity) hb2]
    rw [goTimeAddSec_neg_exact now _ (by positivity) hb2]
    rfl
  refine ⟨?_, ?_, ?_, ?_⟩
  · unfold formatUptime
    rw [parseUptimeComponents_plural n h m s hn hh hm hs]
    exact core n h m s hb
  · unfold formatUptime
    rw [parseUptimeComponents_singular n h m s hn hh hm hs]
    exact core n h m s hb
  · unfold formatUptime
    rw [parseUptimeComponents_timeOnly h m s hh hm hs]
    exact core 0 h m s (by omega)
  · have he : ("3 days, 3:52:36" : String) = mkUptimePlural 3 3 52 36 := by decide
    rw [he]
    unfold formatUptime
    rw [parseUptimeComponents_plural 3 3 52 36 (by omega) (by omega) (by omega) (by omega)]
    dsimp only
    have h4 := core 3 3 52 36 (by norm_num)
    rw [h4, show uptimeSeconds 3 3 52 36 = 273156 from by norm_num [uptimeSeconds]]

/-- Claim C7 witness: the specification's own example `"3 days, 3:52:36"`,
whose duration is far below the int64 bound, rendered at `now = 0`. -/
theorem C7_uptime_round_trip_witness :
    uptimeSeconds 3 3 52 36 * 1000000000 ≤ 9223372036854775807
    ∧ formatUptime 0 "3 days, 3:52:36" = goFormatTime (0 - 273156) :=
  ⟨by decide, (C7_uptime_round_trip 0 3 3 52 36 (by decide)).2.2.2⟩

/-- Claim C8: whenever any parsing step of the uptime normalizer fails
(the split, the day-count scan — including `Sscanf`'s unexpected-newline
and int64 range errors — or the `H:MM:SS` scan), the input string is
returned exactly as it was; as a total function it raises nothing. The
conjuncts exercise `"garbage"`, a non-numeric day count, a missing
seconds field, a three-part split, a newline where the format has a
space, and a day count beyond int64. -/
theorem C8_uptime_failure_identity (now : Int) (s : String) :
    (parseUptimeComponents s.data = none → formatUptime now s = s)
    ∧ formatUptime now "garbage" = "garbage"
    ∧ formatUptime now "one day, 3:4:5" = "one day, 3:4:5"
    ∧ formatUptime now "3 days, 3:52" = "3 days, 3:52"
    ∧ formatUptime now "a, b, c" = "a, b, c"
    ∧ formatUptime now "3\ndays, 1:02:03" = "3\ndays, 1:02:03"
    ∧ formatUptime now "9223372036854775808 days, 0:00:00"
        = "9223372036854775808 days, 0:00:00" := by
  have main : ∀ (t : String), parseUptimeComponents t.data = none → formatUptime now t = t := by
    intro t ht
    unfold formatUptime
    rw [ht]
  exact ⟨main s, main _ (by decide), main _ (by decide), main _ (by decide),
    main _ (by decide), main _ (by decide), main _ (by decide)⟩


end CoreControl
